import Mathlib

/-!
Shallow embedding of the aggregation service and the field supplement service
of the teable computed-field / aggregation layer
(`apps/nestjs-backend/src/features/aggregation/aggregation.service.ts`,
which concatenates `AggregationService` and `FieldSupplementService`).

JavaScript runtime values that flow through the post-processing helpers are
modelled by `JsValue`; `null` and `undefined` are collapsed into `JsValue.null`
(the helpers under scrutiny treat them identically through `?? null` /
optional chaining).  TypeScript string enums (`FieldType`, `StatisticsFunc`
string values) are modelled by their string values or by inductives carrying a
string rendering.  Database reads (`prisma.*.find*`) are modelled as explicit
environment functions giving the row the query would return, `none` standing
for a null / not-found result.  Thrown `BadRequestException` / Prisma
not-found errors are modelled with `Except String`.
-/

/-- Relationship enum of link fields (`Relationship` in `@teable-group/core`). -/
inductive Relationship where
  | oneMany
  | manyOne
  | manyMany
deriving DecidableEq, Repr

/-- Modelled from the spec: `RelationshipRevert` lives in `@teable-group/core`,
outside the provided source; the spec fixes the mirror rule
OneMany↔ManyOne, ManyMany↔ManyMany. -/
def RelationshipRevert : Relationship → Relationship
  | .oneMany => .manyOne
  | .manyOne => .oneMany
  | .manyMany => .manyMany

namespace FieldType

/-- Modelled from the spec: string value of `FieldType.Link` in
`@teable-group/core` (outside the provided source); the service compares
`field.type` against it with `==`/`!==`. -/
def Link : String := "link"

/-- Modelled from the spec: string value of `FieldType.Rollup`. -/
def Rollup : String := "rollup"

/-- Modelled from the spec: string value of `FieldType.Formula`. -/
def Formula : String := "formula"

end FieldType

/-- Statistics functions used by the aggregation value post-processing
(`StatisticsFunc` in `@teable/core`). Only the constructors exercised by the
service's post-processing logic are listed; `statFuncKey` renders the enum's
string value used in aggregate column aliases. -/
inductive StatisticsFunc where
  | sum
  | count
  | max
  | percentEmpty
  | percentFilled
  | percentUnique
  | percentChecked
  | percentUnChecked
  | dateRangeOfDays
  | dateRangeOfMonths
deriving DecidableEq, Repr

/-- Modelled from the spec: string values of the `StatisticsFunc` enum
(`@teable/core`, outside the provided source), used in the
`<fieldId>_<statisticFunc>` aggregate aliases. -/
def statFuncKey : StatisticsFunc → String
  | .sum => "sum"
  | .count => "count"
  | .max => "max"
  | .percentEmpty => "percentEmpty"
  | .percentFilled => "percentFilled"
  | .percentUnique => "percentUnique"
  | .percentChecked => "percentChecked"
  | .percentUnChecked => "percentUnChecked"
  | .dateRangeOfDays => "dateRangeOfDays"
  | .dateRangeOfMonths => "dateRangeOfMonths"

/-- A raw JavaScript value returned by the aggregate queries (`unknown` in the
source). `null` also covers `undefined`; `date` carries the value that
`toISOString()` would render. -/
inductive JsValue where
  | null
  | num (n : Int)
  | bigint (n : Int)
  | str (s : String)
  | date (iso : String)
  | bool (b : Bool)
deriving DecidableEq, Repr

/-- Result of `convertValueToNumberOrString`: `number | string | null`. -/
inductive ConvValue where
  | num (n : Int)
  | str (s : String)
  | null
deriving DecidableEq, Repr

/-- `convertValueToNumberOrString`: bigint/number become numbers, dates become
their ISO string, anything else is stringified, with `null`/`undefined`
becoming `null` (`currentValue?.toString() ?? null`). -/
def convertValueToNumberOrString : JsValue → ConvValue
  | .num n => .num n
  | .bigint n => .num n
  | .date iso => .str iso
  | .null => .null
  | .bool b => .str (if b then "true" else "false")
  | .str s => .str s

/-- A calendar date as parsed from a `YYYY-MM-DD` string. -/
structure DateYMD where
  year : Int
  month : Int
  day : Int
deriving DecidableEq, Repr

/-- JavaScript `String.prototype.split` with a single-character separator,
computed structurally over the character list; `accRev` holds the current
chunk reversed. -/
def splitOnCharAux (sep : Char) : List Char → List Char → List String
  | [], accRev => [String.mk accRev.reverse]
  | c :: cs, accRev =>
    if c = sep then String.mk accRev.reverse :: splitOnCharAux sep cs []
    else splitOnCharAux sep cs (c :: accRev)

/-- JavaScript `String.prototype.split` with a single-character separator. -/
def splitOnChar (sep : Char) (s : String) : List String :=
  splitOnCharAux sep s.data []

/-- Decimal parsing of a digit run, accumulating left to right. -/
def decDigitsAux : List Char → Nat → Option Nat
  | [], acc => some acc
  | c :: cs, acc =>
    if c.isDigit then decDigitsAux cs (acc * 10 + (c.toNat - Char.toNat '0')) else none

/-- Parsing of a nonempty decimal digit string (a `YYYY`/`MM`/`DD` date
component); `none` on empty or non-digit input. -/
def strToNat? (s : String) : Option Nat :=
  match s.data with
  | [] => none
  | cs => decDigitsAux cs 0

/-- Modelled from the spec: parsing of a date string of the form `YYYY-MM-DD`
(done by the external `dayjs` library in the source). Malformed strings give
the zero date; the claims only evaluate well-formed inputs. -/
def parseISODate (s : String) : DateYMD :=
  match (splitOnChar '-' s).map strToNat? with
  | [some y, some m, some d] => ⟨(y : Int), (m : Int), (d : Int)⟩
  | _ => ⟨0, 0, 0⟩

/-- Modelled from the spec: `dayjs(maxTime).diff(minTime, 'month')` (the
`dayjs` library is an external collaborator). For a pair coming from SQL
`MAX`/`MIN` (so `maxTime ≥ minTime`) this is the number of whole calendar
months between the dates: the raw year/month difference, minus one when the
day of month has not yet been reached. -/
def dayjsDiffMonth (maxTime minTime : String) : Int :=
  let a := parseISODate maxTime
  let b := parseISODate minTime
  let whole := (a.year - b.year) * 12 + (a.month - b.month)
  if a.day < b.day then whole - 1 else whole

/-- `calculateDateRangeOfMonths`: splits a `"<max>,<min>"` encoded string and
returns the month difference, or `0` when either side is missing (empty or
absent parts are falsy in the source's `maxTime && minTime` test). -/
def calculateDateRangeOfMonths (currentValue : String) : Int :=
  let parts := splitOnChar ',' currentValue
  let maxTime := (parts[0]?).getD ""
  let minTime := (parts[1]?).getD ""
  if maxTime ≠ "" ∧ minTime ≠ "" then dayjsDiffMonth maxTime minTime else 0

/-- The five percent statistics whose `null` results are coerced to `0`
(the `defaultToZero` list in `formatConvertValue`). -/
def defaultToZero : List StatisticsFunc :=
  [.percentEmpty, .percentFilled, .percentUnique, .percentChecked, .percentUnChecked]

/-- `formatConvertValue`: converts the raw aggregate value, reinterprets
string values of `DateRangeOfMonths` as a month difference, and coerces
`null` to `0` for the percent family. -/
def formatConvertValue (currentValue : JsValue) (aggFunc : Option StatisticsFunc) : ConvValue :=
  let convertValue := convertValueToNumberOrString currentValue
  match aggFunc with
  | none => convertValue
  | some f =>
    let convertValue :=
      match currentValue with
      | .str s => if f = .dateRangeOfMonths then .num (calculateDateRangeOfMonths s) else convertValue
      | _ => convertValue
    if f ∈ defaultToZero then
      match convertValue with
      | .null => .num 0
      | v => v
    else convertValue

/-- Modelled from the spec: `string2Hash` (in `src/utils`, outside the provided
source) is a stable non-cryptographic string-to-integer hash; modelled as a
32-bit accumulating character hash. The claims depend only on it being a
function of the input string, not on the concrete algorithm. -/
def string2Hash (s : String) : Int :=
  Int.ofNat (s.data.foldl (fun h c => (h * 31 + c.toNat) % (2 ^ 32)) 0)

/-- Modelled from the spec: `convertValueToStringify` (in `src/utils`, outside
the provided source) renders dates/numbers/booleans canonically; composed here
with the string coercion that `Array.prototype.join` applies to its elements
(`null` becomes the empty string). -/
def convertValueToStringify : JsValue → String
  | .null => ""
  | .num n => toString n
  | .bigint n => toString n
  | .str s => s
  | .date iso => iso
  | .bool b => if b then "true" else "false"

/-- A result row of an aggregate query, keyed by output column name
(`{ [field: string]: unknown }` in the source). A missing key reads as
`JsValue.null` (JavaScript `undefined`). -/
abbrev DbRow : Type := List (String × JsValue)

/-- Reading a column of a row; missing columns give `null`/`undefined`. -/
def DbRow.get (row : DbRow) (key : String) : JsValue :=
  match row.find? (fun kv => kv.1 = key) with
  | some kv => kv.2
  | none => .null

/-- One `(fieldId, statisticFunc)` aggregation request
(`IAggregationField`). -/
structure StatField where
  fieldId : String
  statisticFunc : StatisticsFunc
deriving DecidableEq, Repr

/-- The group id computed for one result row at group level `i` (the body of
the row loop in `performGroupedAggregation`, lines 174-182): the hash of the
current group field id, an underscore, and the underscore-joined stringified
group values of levels `0..i`. `groupByFields` pairs each group field id with
its db column name. -/
def rowGroupId (groupByFields : List (String × String)) (i : Nat) (row : DbRow) : String :=
  let groupByValueString :=
    String.intercalate "_"
      (((groupByFields.take (i + 1)).map (fun gf => convertValueToStringify (DbRow.get row gf.2))))
  let currentGroupFieldId := ((groupByFields[i]?).map (fun gf => gf.1)).getD ""
  let flagString := currentGroupFieldId ++ "_" ++ groupByValueString
  toString (string2Hash flagString)

/-- One write into a field's per-group statistics map
(`aggregationByFieldId[fieldId].group[groupId] = { value, aggFunc }`). -/
structure GroupAssignment where
  fieldId : String
  groupId : String
  value : ConvValue
  aggFunc : StatisticsFunc
deriving DecidableEq, Repr

/-- The group writes produced by the rows of the level-`i` grouped query
(the inner loops of `performGroupedAggregation`). -/
def levelAssignments (groupByFields : List (String × String)) (statisticFields : List StatField)
    (i : Nat) (rows : List DbRow) : List GroupAssignment :=
  rows.flatMap (fun row =>
    let groupId := rowGroupId groupByFields i row
    statisticFields.map (fun sf =>
      { fieldId := sf.fieldId
        groupId := groupId
        value := formatConvertValue
          (DbRow.get row (sf.fieldId ++ "_" ++ statFuncKey sf.statisticFunc))
          (some sf.statisticFunc)
        aggFunc := sf.statisticFunc }))

/-- All group writes of `performGroupedAggregation`, level by level
(`for i in 0..groupBy.length-1`, level `i` grouping by `groupBy[0..i]`).
`fieldInstanceMap` resolves a field id to its db column name
(`fieldInstanceMap[fieldId].dbFieldName`); `queryResult i` is the row set the
level-`i` grouped aggregate query returns. -/
def groupedAggregationAssignments (groupBy : List String) (fieldInstanceMap : String → String)
    (statisticFields : List StatField) (queryResult : Nat → List DbRow) :
    List GroupAssignment :=
  let groupByFields := groupBy.map (fun fid => (fid, fieldInstanceMap fid))
  (List.range groupBy.length).flatMap (fun i =>
    levelAssignments groupByFields statisticFields i (queryResult i))

/-- An entry of a field's `group` map: `{ value, aggFunc }`. -/
structure GroupEntry where
  value : ConvValue
  aggFunc : StatisticsFunc
deriving DecidableEq, Repr

/-- JavaScript object key assignment on a `groupId → GroupEntry` map:
replace the existing entry or append a new key. -/
def GroupMap.set (m : List (String × GroupEntry)) (k : String) (v : GroupEntry) :
    List (String × GroupEntry) :=
  if m.any (fun kv => kv.1 = k) then
    m.map (fun kv => if kv.1 = k then (k, v) else kv)
  else m ++ [(k, v)]

/-- Per-field aggregation result (`IRawAggregations` element): the flat total
and the optional per-group map. -/
structure FieldAggregates where
  fieldId : String
  total : Option GroupEntry
  group : Option (List (String × GroupEntry))
deriving DecidableEq, Repr

/-- Applying one group write to the per-field aggregation list (the
`aggregationByFieldId[fieldId].group` update; `keyBy` keys the list by field
id, so the update targets the entry with the matching field id). -/
def applyAssignment (aggs : List FieldAggregates) (a : GroupAssignment) : List FieldAggregates :=
  aggs.map (fun fa =>
    if fa.fieldId = a.fieldId then
      { fa with
        group := some (GroupMap.set (fa.group.getD []) a.groupId
          { value := a.value, aggFunc := a.aggFunc }) }
    else fa)

/-- `performGroupedAggregation`: merges every level's grouped query rows into
the per-field `group` maps and returns the updated aggregation list. -/
def performGroupedAggregation (groupBy : List String) (fieldInstanceMap : String → String)
    (statisticFields : List StatField) (queryResult : Nat → List DbRow)
    (aggregations : List FieldAggregates) : List FieldAggregates :=
  (groupedAggregationAssignments groupBy fieldInstanceMap statisticFields queryResult).foldl
    applyAssignment aggregations

/-- A field map (`Record<string, IFieldInstance>`), abstracted to the
association of map keys with field db column names; the query compilers pass
it opaquely to the db-provider fragment builders, so only its identity matters
to the compiled query shape. -/
abbrev FieldInstMap : Type := List (String × String)

/-- A search request tuple `[string, string?, boolean?]`: the term, an
optional field id, and the "apply to this query" flag (`search[2]`). -/
structure SearchParam where
  value : String
  fieldId : Option String
  applyFlag : Option Bool
deriving DecidableEq, Repr

/-- An abstract filter specification (`IFilter`), passed opaquely to the
db-provider's `filterQuery`. -/
abbrev FilterRo : Type := String

/-- One WHERE-clause fragment appended to a compiled query builder. The
`filterCond` / `searchCond` / link-augmentation fragments are produced by
external collaborators (`dbProvider.filterQuery`, `dbProvider.searchQuery`,
`recordService.buildLink*Query`) and are recorded with the exact arguments
the service hands them; `whereIn` / `whereNotIn` are knex builder calls with
concrete semantics. -/
inductive WhereCond where
  | filterCond (fieldMap : FieldInstMap) (filter : FilterRo) (withUserId : Option String)
  | searchCond (fieldMap : FieldInstMap) (search : SearchParam)
  | whereIn (column : String) (recordIds : List String)
  | whereNotIn (column : String) (recordIds : List String)
  | linkCandidate (tableId : String) (value : String)
  | linkSelected (tableId : String) (value : String)
deriving DecidableEq, Repr

/-- Parameters of `handleAggregation`. -/
structure AggregationParams where
  dbTableName : String
  fieldInstanceMap : FieldInstMap
  fieldInstanceMapWithoutHiddenFields : FieldInstMap
  filter : Option FilterRo
  groupBy : Option (List String)
  search : Option SearchParam
  statisticFields : Option (List StatField)
  withUserId : Option String
deriving DecidableEq, Repr

/-- The shape of the query `handleAggregation` compiles: the WHERE conditions
of the filtered base CTE, the statistic fields handed to `aggregationQuery`,
and the group-by field ids handed to `groupQuery` (if any). -/
structure AggQuery where
  dbTableName : String
  cteWhere : List WhereCond
  statisticFields : List StatField
  groupByFieldIds : Option (List String)
deriving DecidableEq, Repr

/-- `handleAggregation`: returns `undefined` (no query) when there are no
statistic fields; otherwise compiles the base CTE with the filter condition
and — only when `search[2]` is set — the search condition. Note: the source
destructures its params without `fieldInstanceMapWithoutHiddenFields` and
passes `fieldInstanceMap` (the full map) to `dbProvider.searchQuery`. -/
def handleAggregation (p : AggregationParams) : Option AggQuery :=
  match p.statisticFields with
  | none => none
  | some stats =>
    if stats.isEmpty then none
    else
      some
        { dbTableName := p.dbTableName
          cteWhere :=
            (match p.filter with
              | some f => [WhereCond.filterCond p.fieldInstanceMap f p.withUserId]
              | none => [])
            ++ (match p.search with
              | some s =>
                if s.applyFlag = some true then [WhereCond.searchCond p.fieldInstanceMap s]
                else []
              | none => [])
          statisticFields := stats
          groupByFieldIds := p.groupBy }

/-- JavaScript truthiness of an optional string-valued request parameter
(absent and empty-string values are falsy). -/
def jsTruthy : Option String → Bool
  | none => false
  | some s => s ≠ ""

/-- Parameters of `handleRowCount`. -/
structure RowCountParams where
  tableId : String
  dbTableName : String
  fieldInstanceMap : FieldInstMap
  fieldInstanceMapWithoutHiddenFields : FieldInstMap
  filter : Option FilterRo
  filterLinkCellCandidate : Option String
  filterLinkCellSelected : Option String
  selectedRecordIds : Option (List String)
  search : Option SearchParam
  withUserId : Option String
deriving DecidableEq, Repr

/-- `handleRowCount`: the WHERE conditions accumulated on the count query
builder, in the order the source appends them: filter, search (over
`fieldInstanceMapWithoutHiddenFields`, only when `search[2]` is set), the
`selectedRecordIds` inclusion/exclusion (`whereNotIn` when
`filterLinkCellCandidate` is set, `whereIn` otherwise), then the
link-candidate / link-selected augmentations. `getRowCount` afterwards clears
select/order/group/having/limit/offset but keeps these conditions and issues
`SELECT COUNT(*)`. -/
def handleRowCount (p : RowCountParams) : List WhereCond :=
  (match p.filter with
    | some f => [WhereCond.filterCond p.fieldInstanceMap f p.withUserId]
    | none => [])
  ++ (match p.search with
    | some s =>
      if s.applyFlag = some true then
        [WhereCond.searchCond p.fieldInstanceMapWithoutHiddenFields s]
      else []
    | none => [])
  ++ (match p.selectedRecordIds with
    | some ids =>
      if jsTruthy p.filterLinkCellCandidate then
        [WhereCond.whereNotIn (p.dbTableName ++ ".__id") ids]
      else [WhereCond.whereIn (p.dbTableName ++ ".__id") ids]
    | none => [])
  ++ (match p.filterLinkCellCandidate with
    | some v => if v ≠ "" then [WhereCond.linkCandidate p.tableId v] else []
    | none => [])
  ++ (match p.filterLinkCellSelected with
    | some v => if v ≠ "" then [WhereCond.linkSelected p.tableId v] else []
    | none => [])

/-- Row-level semantics of a compiled WHERE condition. Rows are identified by
their `__id`; the abstract filter/search/link fragments are interpreted by an
oracle, while the `whereIn`/`whereNotIn` knex calls have their concrete
membership semantics. -/
def evalWhereCond (oracle : WhereCond → String → Bool) : WhereCond → String → Bool
  | WhereCond.whereIn _ ids, rowId => ids.contains rowId
  | WhereCond.whereNotIn _ ids, rowId => !ids.contains rowId
  | c, rowId => oracle c rowId

/-- A row is in the counted set iff it satisfies every accumulated WHERE
condition of the compiled count query. -/
def countedRow (oracle : WhereCond → String → Bool) (conds : List WhereCond)
    (rowId : String) : Bool :=
  conds.all (fun c => evalWhereCond oracle c rowId)

/-- Resolved options of a link field (`ILinkFieldOptions`). -/
structure LinkOptions where
  relationship : Relationship
  foreignTableId : String
  lookupFieldId : String
  dbForeignKeyName : String
  symmetricFieldId : String
deriving DecidableEq, Repr

/-- The `lookupOptions` of a lookup/rollup field request
(`{linkFieldId, lookupFieldId, foreignTableId}`). -/
structure LookupOptionsRo where
  linkFieldId : String
  lookupFieldId : String
  foreignTableId : String
deriving DecidableEq, Repr

/-- The loose `options` object of a field request, read through the source's
per-kind casts (`field.options as ILinkFieldOptions | IFormulaFieldOptions |
IRollupFieldOptions | INumberFieldOptions`): each cast reads only the members
it needs, all of which may be absent at runtime. -/
structure OptionsRo where
  relationship : Option Relationship
  foreignTableId : Option String
  expression : Option String
  formatting : Option String
deriving DecidableEq, Repr

/-- A field creation request (`IFieldRo`). -/
structure FieldRo where
  id : Option String
  name : Option String
  type : String
  isLookup : Bool
  lookupOptions : Option LookupOptionsRo
  options : Option OptionsRo
deriving DecidableEq, Repr

/-- A persisted link-field row as returned by
`field.findFirst({id: linkFieldId, deletedTime: null, type: Link},
select: {name, options})`; `options` is the JSON-parsed `ILinkFieldOptions`
(`none` models a null/empty options column). -/
structure LinkFieldRawRow where
  name : String
  options : Option LinkOptions
deriving DecidableEq, Repr

/-- A persisted field row as returned by `field.findFirst({id, deletedTime:
null})`; `options` carries the raw JSON text of the field's options
(`none` models a null column, which `JSON.parse` maps to `null`). -/
structure FieldRawRow where
  id : String
  name : String
  type : String
  cellValueType : String
  options : Option String
deriving DecidableEq, Repr

/-- The environment of the field supplement service: results of its database
reads and of its calls into external collaborators, keyed by the arguments the
source passes. `none` models a null result (or a throw, for the
`*OrThrow`/parser calls). -/
structure PrepareEnv where
  foreignPrimaryField : String → Option String
  tableName : String → Option String
  dbTableNameOf : String → Option String
  generatedFieldId : String
  generatedSymmetricFieldId : String
  linkFieldRow : String → Option LinkFieldRawRow
  fieldRow : String → Option FieldRawRow
  dbFieldIds : List String
  getReferenceFieldIds : String → Option (List String)
  getParsedValueType : String → String × Bool
  rollupValueType : Option String → Except String (String × Bool)
  getDefaultFormatting : String → Option String

/-- `getForeignKeyFieldName`: the deterministic foreign-key column name
derived from a field id. -/
def getForeignKeyFieldName (fieldId : String) : String :=
  "__fk_" ++ fieldId

/-- The result of preparing a link field: the original request spread with the
generated id, resolved name, and fully-resolved link options
(`{...field, id, name, options}`). -/
structure PreparedLinkField where
  base : FieldRo
  id : String
  name : String
  options : LinkOptions
deriving Repr

/-- `prepareLinkField`: resolves the foreign table's primary field, generates
ids for the field and its symmetric peer when absent, derives the foreign-key
column name from the ManyOne side's field id (own id for ManyOne, symmetric id
for OneMany, empty otherwise), and defaults the name to the foreign table's
display name. An absent `options`/`relationship`/`foreignTableId` would be a
runtime `TypeError` on the source's cast and is modelled as an error. -/
def prepareLinkField (field : FieldRo) (env : PrepareEnv) : Except String PreparedLinkField :=
  match field.options.bind (fun o => o.relationship),
      field.options.bind (fun o => o.foreignTableId) with
  | some relationship, some foreignTableId =>
    match env.foreignPrimaryField foreignTableId with
    | none => .error "NotFoundError: no primary field found in foreign table"
    | some lookupFieldId =>
      let fieldId := field.id.getD env.generatedFieldId
      let symmetricFieldId := env.generatedSymmetricFieldId
      let dbForeignKeyName :=
        if relationship = Relationship.manyOne then getForeignKeyFieldName fieldId
        else if relationship = Relationship.oneMany then getForeignKeyFieldName symmetricFieldId
        else ""
      let options : LinkOptions :=
        { relationship := relationship
          foreignTableId := foreignTableId
          lookupFieldId := lookupFieldId
          dbForeignKeyName := dbForeignKeyName
          symmetricFieldId := symmetricFieldId }
      match field.name with
      | some n => .ok { base := field, id := fieldId, name := n, options := options }
      | none =>
        match env.tableName foreignTableId with
        | none => .error ("foreignTableId " ++ foreignTableId ++ " is invalid")
        | some n => .ok { base := field, id := fieldId, name := n, options := options }
  | _, _ => .error "TypeError: link field options are required"

/-- The resolution of a link field's options in `prepareLookupOptions`:
`(optionsRaw && JSON.parse(optionsRaw)) || batchFieldRos?.find(f => f.id ===
linkFieldId)`. The fallback stores a whole field request where an
`ILinkFieldOptions` is expected; such a value has no `foreignTableId` member,
so the subsequent check always rejects it. -/
inductive LinkOptsResolved where
  | fromRaw (o : LinkOptions)
  | fromBatchRo (f : FieldRo)
deriving Repr

/-- The `linkFieldOptions` expression of `prepareLookupOptions`. -/
def resolveLinkFieldOptions (linkFieldRaw : Option LinkFieldRawRow)
    (batchFieldRos : Option (List FieldRo)) (linkFieldId : String) :
    Option LinkOptsResolved :=
  match linkFieldRaw.bind (fun r => r.options) with
  | some o => some (.fromRaw o)
  | none =>
    (batchFieldRos.bind (fun l => l.find? (fun f => f.id = some linkFieldId))).map .fromBatchRo

/-- The fully-resolved `lookupOptions` carried by a prepared lookup/rollup
field. -/
structure PreparedLookupOptions where
  linkFieldId : String
  lookupFieldId : String
  foreignTableId : String
  relationship : Relationship
  dbForeignKeyName : String
deriving DecidableEq, Repr

/-- `prepareLookupOptions`: requires `lookupOptions`, resolves the referenced
link field (which must exist, be of kind Link and target the stated foreign
table) and the referenced source field (which must exist and not be
soft-deleted), and returns the resolved lookup options together with both raw
rows. -/
def prepareLookupOptions (field : FieldRo) (batchFieldRos : Option (List FieldRo))
    (env : PrepareEnv) :
    Except String (PreparedLookupOptions × FieldRawRow × LinkFieldRawRow) :=
  match field.lookupOptions with
  | none => .error "lookupOptions is required"
  | some lo =>
    let linkFieldRaw := env.linkFieldRow lo.linkFieldId
    match resolveLinkFieldOptions linkFieldRaw batchFieldRos lo.linkFieldId, linkFieldRaw with
    | none, _ => .error ("linkFieldId " ++ lo.linkFieldId ++ " is invalid")
    | _, none => .error ("linkFieldId " ++ lo.linkFieldId ++ " is invalid")
    | some (.fromBatchRo _), some _ =>
      .error ("foreignTableId " ++ lo.foreignTableId ++ " is invalid")
    | some (.fromRaw o), some lraw =>
      if lo.foreignTableId ≠ o.foreignTableId then
        .error ("foreignTableId " ++ lo.foreignTableId ++ " is invalid")
      else
        match env.fieldRow lo.lookupFieldId with
        | none => .error ("Lookup field " ++ lo.lookupFieldId ++ " is not exist")
        | some lookupFieldRaw =>
          .ok
            ({ linkFieldId := lo.linkFieldId
               lookupFieldId := lo.lookupFieldId
               foreignTableId := lo.foreignTableId
               relationship := o.relationship
               dbForeignKeyName := o.dbForeignKeyName },
             lookupFieldRaw, lraw)

/-- The merged `options` of a prepared lookup field: the source field's
options object (raw JSON text, possibly null), optionally spread with a
formatting (`lookupFieldOptions ? (formatting ? {...lookupFieldOptions,
formatting} : lookupFieldOptions) : undefined`). -/
inductive LookupMergedOptions where
  | undef
  | plain (src : String)
  | withFormatting (src : String) (formatting : String)
deriving DecidableEq, Repr

/-- The result of preparing a lookup field. -/
structure PreparedLookupField where
  base : FieldRo
  name : String
  options : LookupMergedOptions
  lookupOptions : PreparedLookupOptions
deriving Repr

/-- `prepareLookupField`: resolves the lookup options, requires the declared
type to equal the source field's type, merges the source's options with the
caller-supplied or default formatting, and defaults the display name to
`"<source name> (from <link name>)"`. -/
def prepareLookupField (field : FieldRo) (batchFieldRos : Option (List FieldRo))
    (env : PrepareEnv) : Except String PreparedLookupField :=
  match prepareLookupOptions field batchFieldRos env with
  | .error e => .error e
  | .ok (lookupOptions, lookupFieldRaw, linkFieldRaw) =>
    if lookupFieldRaw.type ≠ field.type then
      .error ("Current field type " ++ field.type ++ " is not equal to lookup field (" ++
        lookupFieldRaw.type ++ ")")
    else
      let formatting :=
        (field.options.bind (fun o => o.formatting)).orElse
          (fun _ => env.getDefaultFormatting lookupFieldRaw.cellValueType)
      let options :=
        match lookupFieldRaw.options with
        | none => LookupMergedOptions.undef
        | some src =>
          match formatting with
          | some f => LookupMergedOptions.withFormatting src f
          | none => LookupMergedOptions.plain src
      .ok
        { base := field
          name := field.name.getD (lookupFieldRaw.name ++ " (from " ++ linkFieldRaw.name ++ ")")
          options := options
          lookupOptions := lookupOptions }

/-- `Array.prototype.join()` with the default `","` separator
(`fieldIds.join()` in the formula error message). -/
def joinComma : List String → String
  | [] => ""
  | [x] => x
  | x :: xs => x ++ "," ++ joinComma xs

/-- The ids present in the field map `prepareFormulaField` resolves references
against: the persisted rows returned by `field.findMany({id: {in: fieldIds}})`
(note: no soft-delete filter in the source) concatenated with the sibling
batch definitions, keyed by id. -/
def formulaFieldMapIds (env : PrepareEnv) (batchFieldRos : Option (List FieldRo))
    (fieldIds : List String) : List String :=
  fieldIds.filter (fun id => env.dbFieldIds.contains id)
    ++ (batchFieldRos.getD []).filterMap (fun f => f.id)

/-- The result of preparing a formula field. -/
structure PreparedFormulaField where
  base : FieldRo
  options : OptionsRo
  cellValueType : String
  isMultipleCellValue : Bool
deriving Repr

/-- `prepareFormulaField`: extracts the referenced field ids from the
expression (any parser throw — including the cast's `TypeError` on absent
options — becomes `expression parse error`), resolves each id against
persisted fields and the sibling batch, fails naming the joined reference list
when some id is unresolved, then infers the value type and applies default
formatting. -/
def prepareFormulaField (field : FieldRo) (batchFieldRos : Option (List FieldRo))
    (env : PrepareEnv) : Except String PreparedFormulaField :=
  match field.options with
  | none => .error "expression parse error"
  | some opts =>
    match opts.expression.bind env.getReferenceFieldIds with
    | none => .error "expression parse error"
    | some fieldIds =>
      match fieldIds.find? (fun id => !(formulaFieldMapIds env batchFieldRos fieldIds).contains id) with
      | some _ => .error ("formula field reference " ++ joinComma fieldIds ++ " not found")
      | none =>
        let parsed := env.getParsedValueType (opts.expression.getD "")
        let formatting :=
          opts.formatting.orElse (fun _ => env.getDefaultFormatting parsed.1)
        let options :=
          match formatting with
          | some f => { opts with formatting := some f }
          | none => opts
        .ok
          { base := field
            options := options
            cellValueType := parsed.1
            isMultipleCellValue := parsed.2 }

/-- The result of preparing a rollup field. -/
structure PreparedRollupField where
  base : FieldRo
  name : String
  options : OptionsRo
  lookupOptions : PreparedLookupOptions
  cellValueType : String
  isMultipleCellValue : Bool
deriving Repr

/-- `prepareRollupField`: reuses the lookup resolution, requires `options`,
parses the rollup expression for the value type (propagating the parser's
message on failure), applies default formatting, and defaults the display name
to `"<source name> Rollup (from <link name>)"`. -/
def prepareRollupField (field : FieldRo) (batchFieldRos : Option (List FieldRo))
    (env : PrepareEnv) : Except String PreparedRollupField :=
  match prepareLookupOptions field batchFieldRos env with
  | .error e => .error e
  | .ok (lookupOptions, lookupFieldRaw, linkFieldRaw) =>
    match field.options with
    | none => .error "rollup field options is required"
    | some opts =>
      match env.rollupValueType opts.expression with
      | .error e => .error e
      | .ok parsed =>
        let formatting :=
          opts.formatting.orElse (fun _ => env.getDefaultFormatting parsed.1)
        let fulfilledOptions :=
          match formatting with
          | some f => { opts with formatting := some f }
          | none => opts
        .ok
          { base := field
            name := field.name.getD
              (lookupFieldRaw.name ++ " Rollup (from " ++ linkFieldRaw.name ++ ")")
            options := fulfilledOptions
            lookupOptions := lookupOptions
            cellValueType := parsed.1
            isMultipleCellValue := parsed.2 }

/-- A prepared field, tagged by the preparation path taken. -/
inductive PreparedField where
  | lookup (f : PreparedLookupField)
  | rollup (f : PreparedRollupField)
  | link (f : PreparedLinkField)
  | formula (f : PreparedFormulaField)
  | plain (f : FieldRo)
deriving Repr

/-- `prepareField`: dispatches on `isLookup` first, then on the field type
(Rollup, Link, Formula), returning every other request unchanged. -/
def prepareField (field : FieldRo) (batchFieldRos : Option (List FieldRo))
    (env : PrepareEnv) : Except String PreparedField :=
  if field.isLookup then
    (prepareLookupField field batchFieldRos env).map .lookup
  else if field.type = FieldType.Rollup then
    (prepareRollupField field batchFieldRos env).map .rollup
  else if field.type = FieldType.Link then
    (prepareLinkField field env).map .link
  else if field.type = FieldType.Formula then
    (prepareFormulaField field batchFieldRos env).map .formula
  else
    .ok (.plain field)

/-- `generateSymmetricField`: builds the symmetric link field on the foreign
table — owned id is the field's `symmetricFieldId`, name is the current
table's display name, relationship is reverted, the foreign-key name is
shared, and `symmetricFieldId` points back at the field. -/
def generateSymmetricField (tableId : String) (field : PreparedLinkField) (env : PrepareEnv) :
    Except String PreparedLinkField :=
  match env.tableName tableId, env.foreignPrimaryField tableId with
  | some tblName, some lookupFieldId =>
    .ok
      { base :=
          { id := some field.options.symmetricFieldId
            name := some tblName
            type := FieldType.Link
            isLookup := false
            lookupOptions := none
            options := none }
        id := field.options.symmetricFieldId
        name := tblName
        options :=
          { relationship := RelationshipRevert field.options.relationship
            foreignTableId := tableId
            lookupFieldId := lookupFieldId
            dbForeignKeyName := field.options.dbForeignKeyName
            symmetricFieldId := field.id } }
  | _, _ => .error "NotFoundError: table or primary field not found"

/-- The schema effect of `createForeignKeyField`: a nullable, uniquely
constrained string column added to a physical table. -/
structure FkColumn where
  dbTableName : String
  columnName : String
deriving DecidableEq, Repr

/-- `createForeignKeyField`: defensively requires a ManyOne relationship, then
adds the foreign-key column to the owning table. -/
def createForeignKeyField (tableId : String) (field : PreparedLinkField) (env : PrepareEnv) :
    Except String FkColumn :=
  if field.options.relationship ≠ Relationship.manyOne then
    .error "only many-one relationship should create foreign key field"
  else
    match env.dbTableNameOf tableId with
    | none => .error "NotFoundError: table not found"
    | some dbName => .ok { dbTableName := dbName, columnName := field.options.dbForeignKeyName }

/-- `supplementByCreate`: requires a Link field, generates the symmetric
field, and creates a foreign-key column on the foreign table when the
symmetric side is ManyOne and on the own table when this side is ManyOne;
returns the symmetric field together with the foreign-key columns created. -/
def supplementByCreate (tableId : String) (field : PreparedLinkField) (env : PrepareEnv) :
    Except String (PreparedLinkField × List FkColumn) :=
  if field.base.type ≠ FieldType.Link then
    .error "only link field need to create supplement field"
  else
    let foreignTableId := field.options.foreignTableId
    match generateSymmetricField tableId field env with
    | .error e => .error e
    | .ok symmetricField =>
      match
        (if symmetricField.options.relationship = Relationship.manyOne then
          (createForeignKeyField foreignTableId symmetricField env).map (fun c => [c])
        else .ok []) with
      | .error e => .error e
      | .ok fks1 =>
        match
          (if field.options.relationship = Relationship.manyOne then
            (createForeignKeyField tableId field env).map (fun c => [c])
          else .ok []) with
        | .error e => .error e
        | .ok fks2 => .ok (symmetricField, fks1 ++ fks2)

def c5Search : SearchParam := { value := "x", fieldId := none, applyFlag := some true }

def c5SearchOff : SearchParam := { value := "x", fieldId := none, applyFlag := none }

def c5FullMap : FieldInstMap := [("fldA", "col_a"), ("fldB", "col_b")]

def c5HiddenRemovedMap : FieldInstMap := [("fldA", "col_a")]

def c5AggParams : AggregationParams :=
  { dbTableName := "tbl_x"
    fieldInstanceMap := c5FullMap
    fieldInstanceMapWithoutHiddenFields := c5HiddenRemovedMap
    filter := none
    groupBy := none
    search := some c5Search
    statisticFields := some [{ fieldId := "fldA", statisticFunc := .sum }]
    withUserId := none }

def c5RowParams : RowCountParams :=
  { tableId := "tblX"
    dbTableName := "tbl_x"
    fieldInstanceMap := c5FullMap
    fieldInstanceMapWithoutHiddenFields := c5HiddenRemovedMap
    filter := none
    filterLinkCellCandidate := none
    filterLinkCellSelected := none
    selectedRecordIds := none
    search := some c5Search
    withUserId := none }

def c6RowParams : RowCountParams :=
  { tableId := "tblX"
    dbTableName := "tbl_x"
    fieldInstanceMap := [("fldA", "col_a")]
    fieldInstanceMapWithoutHiddenFields := [("fldA", "col_a")]
    filter := none
    filterLinkCellCandidate := none
    filterLinkCellSelected := none
    selectedRecordIds := some ["r1", "r2"]
    search := none
    withUserId := none }

def c6Oracle : WhereCond → String → Bool := fun _ _ => true

def c7LinkOpts : LinkOptions :=
  { relationship := .manyOne
    foreignTableId := "tblF"
    lookupFieldId := "fldP"
    dbForeignKeyName := "__fk_fldLink"
    symmetricFieldId := "fldSym" }

def c7Lo : LookupOptionsRo :=
  { linkFieldId := "fldLink", lookupFieldId := "fldSrc", foreignTableId := "tblF" }

def c7Lraw : LinkFieldRawRow := { name := "Link", options := some c7LinkOpts }

def c7Sraw : FieldRawRow :=
  { id := "fldSrc", name := "Source", type := "singleLineText", cellValueType := "string"
    options := none }

def c7Field : FieldRo :=
  { id := none, name := none, type := "number", isLookup := true
    lookupOptions := some c7Lo, options := none }

def c7Env : PrepareEnv :=
  { foreignPrimaryField := fun _ => none
    tableName := fun _ => none
    dbTableNameOf := fun _ => none
    generatedFieldId := "fldGen"
    generatedSymmetricFieldId := "fldGenSym"
    linkFieldRow := fun id => if id = "fldLink" then some c7Lraw else none
    fieldRow := fun id => if id = "fldSrc" then some c7Sraw else none
    dbFieldIds := []
    getReferenceFieldIds := fun _ => none
    getParsedValueType := fun _ => ("string", false)
    rollupValueType := fun _ => .error "invalid expression"
    getDefaultFormatting := fun _ => none }

def c8Field : FieldRo :=
  { id := none, name := none, type := "formula", isLookup := false
    lookupOptions := none
    options := some
      { relationship := none, foreignTableId := none
        expression := some "{fldA} + {fldB}", formatting := none } }

def c8Env : PrepareEnv :=
  { foreignPrimaryField := fun _ => none
    tableName := fun _ => none
    dbTableNameOf := fun _ => none
    generatedFieldId := "fldGen"
    generatedSymmetricFieldId := "fldGenSym"
    linkFieldRow := fun _ => none
    fieldRow := fun _ => none
    dbFieldIds := ["fldA"]
    getReferenceFieldIds := fun e =>
      if e = "{fldA} + {fldB}" then some ["fldA", "fldB"] else none
    getParsedValueType := fun _ => ("number", false)
    rollupValueType := fun _ => .error "invalid expression"
    getDefaultFormatting := fun _ => none }

def c1Field : FieldRo :=
  { id := some "fldA"
    name := some "Books"
    type := "link"
    isLookup := false
    lookupOptions := none
    options := some
      { relationship := some .manyOne
        foreignTableId := some "tblF"
        expression := none
        formatting := none } }

def c1Env : PrepareEnv :=
  { foreignPrimaryField := fun t =>
      if t = "tblF" then some "fldFP" else if t = "tbl1" then some "fldP1" else none
    tableName := fun t =>
      if t = "tbl1" then some "Authors" else if t = "tblF" then some "Books" else none
    dbTableNameOf := fun t =>
      if t = "tbl1" then some "db_tbl1" else if t = "tblF" then some "db_tblF" else none
    generatedFieldId := "fldGen"
    generatedSymmetricFieldId := "fldSym"
    linkFieldRow := fun _ => none
    fieldRow := fun _ => none
    dbFieldIds := []
    getReferenceFieldIds := fun _ => none
    getParsedValueType := fun _ => ("string", false)
    rollupValueType := fun _ => .error "invalid expression"
    getDefaultFormatting := fun _ => none }

def c1A : PreparedLinkField :=
  { base := c1Field
    id := "fldA"
    name := "Books"
    options :=
      { relationship := .manyOne
        foreignTableId := "tblF"
        lookupFieldId := "fldFP"
        dbForeignKeyName := "__fk_fldA"
        symmetricFieldId := "fldSym" } }

def c1B : PreparedLinkField :=
  { base :=
      { id := some "fldSym"
        name := some "Authors"
        type := "link"
        isLookup := false
        lookupOptions := none
        options := none }
    id := "fldSym"
    name := "Authors"
    options :=
      { relationship := .oneMany
        foreignTableId := "tbl1"
        lookupFieldId := "fldP1"
        dbForeignKeyName := "__fk_fldA"
        symmetricFieldId := "fldA" } }

def c3Field : FieldRo :=
  { id := some "fldC"
    name := some "Tags"
    type := "link"
    isLookup := false
    lookupOptions := none
    options := some
      { relationship := some .oneMany
        foreignTableId := some "tblF"
        expression := none
        formatting := none } }

def c3A : PreparedLinkField :=
  { base := c3Field
    id := "fldC"
    name := "Tags"
    options :=
      { relationship := .oneMany
        foreignTableId := "tblF"
        lookupFieldId := "fldFP"
        dbForeignKeyName := "__fk_fldSym"
        symmetricFieldId := "fldSym" } }

def c10Field : FieldRo :=
  { id := some "fldM"
    name := some "Genres"
    type := "link"
    isLookup := false
    lookupOptions := none
    options := some
      { relationship := some .manyMany
        foreignTableId := some "tblF"
        expression := none
        formatting := none } }

def c10A : PreparedLinkField :=
  { base := c10Field
    id := "fldM"
    name := "Genres"
    options :=
      { relationship := .manyMany
        foreignTableId := "tblF"
        lookupFieldId := "fldFP"
        dbForeignKeyName := ""
        symmetricFieldId := "fldSym" } }

def c10B : PreparedLinkField :=
  { base :=
      { id := some "fldSym"
        name := some "Authors"
        type := "link"
        isLookup := false
        lookupOptions := none
        options := none }
    id := "fldSym"
    name := "Authors"
    options :=
      { relationship := .manyMany
        foreignTableId := "tbl1"
        lookupFieldId := "fldP1"
        dbForeignKeyName := ""
        symmetricFieldId := "fldM" } }

def c2GroupBy : List String := ["fldName"]

def c2FieldInstanceMap : String → String := fun fid =>
  if fid = "fldName" then "col_name" else if fid = "fldAmt" then "col_amt" else ""

def c2Stats : List StatField := [{ fieldId := "fldAmt", statisticFunc := .sum }]

def c2Row : DbRow := [("col_name", .str "A"), ("fldAmt_sum", .num 30)]

def c2QueryResult : Nat → List DbRow := fun _ => [c2Row]

/-- C4: for every aggregation value post-processed with a statistic function
among PercentEmpty, PercentFilled, PercentUnique, PercentChecked and
PercentUnChecked, the converted result of `formatConvertValue` is never
`null`: whenever the raw value converts to `null`, it is coerced to `0`. -/
theorem percent_statistics_never_null (v : JsValue) (f : StatisticsFunc)
    (hf : f ∈ defaultToZero) :
    formatConvertValue v (some f) ≠ ConvValue.null := by
  fin_cases hf <;> cases v <;>
    simp [formatConvertValue, convertValueToNumberOrString, defaultToZero]

theorem percent_statistics_never_null_witness :
    formatConvertValue JsValue.null (some StatisticsFunc.percentEmpty) ≠ ConvValue.null :=
  percent_statistics_never_null JsValue.null StatisticsFunc.percentEmpty (by decide)

/-- C9: for every aggregation value post-processed with
`statisticFunc = DateRangeOfMonths` and a string raw value of the form
`"<max>,<min>"`, the converted result is the integer month difference between
the max and min dates, and `0` when either side of the comma is missing; in
particular input `"2024-03-15,2024-01-10"` yields `2`. -/
theorem date_range_of_months_conversion :
    (∀ s : String, formatConvertValue (JsValue.str s) (some StatisticsFunc.dateRangeOfMonths)
      = ConvValue.num (calculateDateRangeOfMonths s))
    ∧ formatConvertValue (JsValue.str "2024-03-15,2024-01-10")
        (some StatisticsFunc.dateRangeOfMonths) = ConvValue.num 2
    ∧ (∀ s maxT minT : String, splitOnChar ',' s = [maxT, minT] → maxT ≠ "" → minT ≠ "" →
        calculateDateRangeOfMonths s = dayjsDiffMonth maxT minT)
    ∧ (∀ s : String,
        ((splitOnChar ',' s)[0]?).getD "" = "" ∨ ((splitOnChar ',' s)[1]?).getD "" = "" →
        calculateDateRangeOfMonths s = 0) := by
  refine ⟨?_, by decide, ?_, ?_⟩
  · intro s
    simp [formatConvertValue, defaultToZero]
  · intro s maxT minT hsplit hmax hmin
    simp [calculateDateRangeOfMonths, hsplit, hmax, hmin]
  · intro s h
    rcases h with h | h <;> simp [calculateDateRangeOfMonths, h]

theorem date_range_of_months_conversion_witness :
    formatConvertValue (JsValue.str "2024-03-15,2024-01-10")
      (some StatisticsFunc.dateRangeOfMonths) = ConvValue.num 2
    ∧ calculateDateRangeOfMonths "2024-03-15," = 0 :=
  ⟨date_range_of_months_conversion.2.1,
   date_range_of_months_conversion.2.2.2 "2024-03-15," (Or.inr (by decide))⟩

/-- C5: evaluation of the code at the failing input. The claim states that in
both the aggregation compiler and the row-count compiler an applied search is
compiled over the separate field map with hidden fields removed. The code
satisfies the apply-flag part in both compilers (last two conjuncts), and the
hidden-removed-map part in the row-count compiler only: `handleAggregation`
ignores its `fieldInstanceMapWithoutHiddenFields` parameter and compiles the
search condition over the full `fieldInstanceMap`, shown here at a concrete
input where the two maps differ. -/
theorem aggregation_search_uses_full_field_map :
    handleAggregation c5AggParams =
      some { dbTableName := "tbl_x"
             cteWhere := [WhereCond.searchCond c5FullMap c5Search]
             statisticFields := [{ fieldId := "fldA", statisticFunc := .sum }]
             groupByFieldIds := none }
    ∧ c5FullMap ≠ c5HiddenRemovedMap
    ∧ handleRowCount c5RowParams = [WhereCond.searchCond c5HiddenRemovedMap c5Search]
    ∧ handleAggregation { c5AggParams with search := some c5SearchOff }
        = handleAggregation { c5AggParams with search := none }
    ∧ handleRowCount { c5RowParams with search := some c5SearchOff }
        = handleRowCount { c5RowParams with search := none } :=
  ⟨rfl, by decide, rfl, rfl, rfl⟩

/-- C6: for every row-count request with a `selectedRecordIds` list, a row in
the counted set (one satisfying every compiled WHERE condition) has its id
among the selected ids exactly when `filterLinkCellCandidate` is not set:
when the candidate filter is set those ids are excluded, otherwise (whether or
not `filterLinkCellSelected` is set) only those ids are counted. -/
theorem row_count_selected_record_ids_semantics
    (p : RowCountParams) (ids : List String) (oracle : WhereCond → String → Bool)
    (rowId : String)
    (hsel : p.selectedRecordIds = some ids)
    (hcount : countedRow oracle (handleRowCount p) rowId = true) :
    rowId ∈ ids ↔ jsTruthy p.filterLinkCellCandidate = false := by
  have hall : ∀ c ∈ handleRowCount p, evalWhereCond oracle c rowId = true :=
    List.all_eq_true.mp hcount
  cases hc : jsTruthy p.filterLinkCellCandidate
  case false =>
    have hmem : WhereCond.whereIn (p.dbTableName ++ ".__id") ids ∈ handleRowCount p := by
      simp [handleRowCount, hsel, hc]
    have hev := hall _ hmem
    simp only [evalWhereCond] at hev
    replace hev : rowId ∈ ids := by simpa using hev
    simp [hev]
  case true =>
    have hmem : WhereCond.whereNotIn (p.dbTableName ++ ".__id") ids ∈ handleRowCount p := by
      simp [handleRowCount, hsel, hc]
    have hev := hall _ hmem
    simp only [evalWhereCond] at hev
    replace hev : rowId ∉ ids := by simpa using hev
    simp [hev]

theorem row_count_selected_record_ids_semantics_witness :
    "r1" ∈ ["r1", "r2"] ↔ jsTruthy c6RowParams.filterLinkCellCandidate = false :=
  row_count_selected_record_ids_semantics c6RowParams ["r1", "r2"] c6Oracle "r1"
    (by decide) (by decide)

/-- C7: for every lookup field definition (`isLookup = true`) whose declared
field type differs from the resolved source field's type, `prepareField` fails
with a validation error whose message names both the declared type and the
source field's type, and returns no resolved field. -/
theorem lookup_type_mismatch_validation_error
    (field : FieldRo) (batchFieldRos : Option (List FieldRo)) (env : PrepareEnv)
    (lo : LookupOptionsRo) (lraw : LinkFieldRawRow) (o : LinkOptions) (sraw : FieldRawRow)
    (hlk : field.isLookup = true)
    (hlo : field.lookupOptions = some lo)
    (hlraw : env.linkFieldRow lo.linkFieldId = some lraw)
    (ho : lraw.options = some o)
    (hft : lo.foreignTableId = o.foreignTableId)
    (hsraw : env.fieldRow lo.lookupFieldId = some sraw)
    (hty : sraw.type ≠ field.type) :
    prepareField field batchFieldRos env =
      .error ("Current field type " ++ field.type ++ " is not equal to lookup field ("
        ++ sraw.type ++ ")") := by
  have hopts : prepareLookupOptions field batchFieldRos env =
      .ok
        ({ linkFieldId := lo.linkFieldId
           lookupFieldId := lo.lookupFieldId
           foreignTableId := lo.foreignTableId
           relationship := o.relationship
           dbForeignKeyName := o.dbForeignKeyName },
         sraw, lraw) := by
    simp [prepareLookupOptions, hlo, hlraw, resolveLinkFieldOptions, ho, hft, hsraw]
  simp [prepareField, hlk, prepareLookupField, hopts, hty, Except.map]

theorem lookup_type_mismatch_validation_error_witness :
    prepareField c7Field none c7Env =
      .error ("Current field type " ++ c7Field.type ++ " is not equal to lookup field ("
        ++ c7Sraw.type ++ ")") :=
  lookup_type_mismatch_validation_error c7Field none c7Env c7Lo c7Lraw c7LinkOpts c7Sraw
    rfl rfl rfl rfl rfl rfl (by decide)

lemma joinComma_split {a : String} :
    ∀ {l : List String}, a ∈ l → ∃ s1 s2, joinComma l = s1 ++ a ++ s2 := by
  intro l h
  induction l with
  | nil => cases h
  | cons x xs ih =>
    rcases List.mem_cons.mp h with rfl | hmem
    · cases xs with
      | nil =>
        refine ⟨"", "", ?_⟩
        simp [joinComma]
      | cons y ys =>
        refine ⟨"", "," ++ joinComma (y :: ys), ?_⟩
        simp [joinComma, String.append_assoc]
    · obtain ⟨s1, s2, hs⟩ := ih hmem
      cases xs with
      | nil => cases hmem
      | cons y ys =>
        refine ⟨x ++ "," ++ s1, s2, ?_⟩
        simp only [joinComma, hs, String.append_assoc]

/-- C8: for every formula field definition whose expression references a field
id that resolves against neither the persisted fields nor the sibling
definitions in the same batch, `prepareField` fails with a validation error
whose message names the first unresolved field id (the message joins the whole
referenced id list, which contains that id). -/
theorem formula_unresolved_reference_validation_error
    (field : FieldRo) (batchFieldRos : Option (List FieldRo)) (env : PrepareEnv)
    (opts : OptionsRo) (expr : String) (fieldIds : List String) (badId : String)
    (hlk : field.isLookup = false)
    (hty : field.type = FieldType.Formula)
    (hopts : field.options = some opts)
    (hexpr : opts.expression = some expr)
    (hparse : env.getReferenceFieldIds expr = some fieldIds)
    (hfind : fieldIds.find?
      (fun id => !(formulaFieldMapIds env batchFieldRos fieldIds).contains id) = some badId) :
    prepareField field batchFieldRos env =
      .error ("formula field reference " ++ joinComma fieldIds ++ " not found")
    ∧ ∃ s1 s2, "formula field reference " ++ joinComma fieldIds ++ " not found"
        = s1 ++ badId ++ s2 := by
  constructor
  · have hfind2 : fieldIds.find?
        (fun id => !decide (id ∈ formulaFieldMapIds env batchFieldRos fieldIds)) = some badId := by
      simpa using hfind
    simp [prepareField, hlk, hty, FieldType.Formula, FieldType.Rollup, FieldType.Link,
      prepareFormulaField, hopts, hexpr, hparse, hfind2, Except.map]
  · obtain ⟨s1, s2, hs⟩ := joinComma_split (List.mem_of_find?_eq_some hfind)
    refine ⟨"formula field reference " ++ s1, s2 ++ " not found", ?_⟩
    rw [hs]
    simp [String.append_assoc]

theorem formula_unresolved_reference_validation_error_witness :
    prepareField c8Field none c8Env =
      .error ("formula field reference " ++ joinComma ["fldA", "fldB"] ++ " not found")
    ∧ ∃ s1 s2, "formula field reference " ++ joinComma ["fldA", "fldB"] ++ " not found"
        = s1 ++ "fldB" ++ s2 :=
  formula_unresolved_reference_validation_error c8Field none c8Env
    { relationship := none, foreignTableId := none
      expression := some "{fldA} + {fldB}", formatting := none }
    "{fldA} + {fldB}" ["fldA", "fldB"] "fldB" rfl rfl rfl rfl (by decide) (by decide)

lemma prepareField_link_inv (field : FieldRo) (batchFieldRos : Option (List FieldRo))
    (env : PrepareEnv) (a : PreparedLinkField)
    (h : prepareField field batchFieldRos env = .ok (.link a)) :
    field.isLookup = false ∧ field.type = FieldType.Link ∧
      prepareLinkField field env = .ok a := by
  cases h1 : field.isLookup
  case true =>
    exfalso
    cases hx : prepareLookupField field batchFieldRos env <;>
      simp [prepareField, h1, hx, Except.map] at h
  case false =>
    by_cases h2 : field.type = FieldType.Rollup
    · exfalso
      cases hx : prepareRollupField field batchFieldRos env <;>
        simp [prepareField, h1, h2, hx, Except.map] at h
    · by_cases h3 : field.type = FieldType.Link
      · refine ⟨rfl, h3, ?_⟩
        cases hx : prepareLinkField field env <;>
          simp [prepareField, h1, h2, h3, hx, Except.map,
            FieldType.Link, FieldType.Rollup, FieldType.Formula] at h
        rw [h]
      · by_cases h4 : field.type = FieldType.Formula
        · exfalso
          cases hx : prepareFormulaField field batchFieldRos env <;>
            simp [prepareField, h1, h2, h3, h4, hx, Except.map,
              FieldType.Link, FieldType.Rollup, FieldType.Formula] at h
        · exfalso
          simp [prepareField, h1, h2, h3, h4] at h

lemma prepareLinkField_inv (field : FieldRo) (env : PrepareEnv) (a : PreparedLinkField)
    (h : prepareLinkField field env = .ok a) :
    a.base = field ∧
    a.id = field.id.getD env.generatedFieldId ∧
    a.options.symmetricFieldId = env.generatedSymmetricFieldId ∧
    field.options.bind (fun o => o.relationship) = some a.options.relationship ∧
    a.options.dbForeignKeyName =
      (if a.options.relationship = Relationship.manyOne then getForeignKeyFieldName a.id
       else if a.options.relationship = Relationship.oneMany then
         getForeignKeyFieldName env.generatedSymmetricFieldId
       else "") := by
  unfold prepareLinkField at h
  cases h1 : field.options.bind (fun o => o.relationship) <;> simp only [h1] at h
  case none => cases h
  case some rel =>
  cases h2 : field.options.bind (fun o => o.foreignTableId) <;> simp only [h2] at h
  case none => cases h
  case some ftid =>
  cases h3 : env.foreignPrimaryField ftid <;> simp only [h3] at h
  case none => cases h
  case some pf =>
  cases h4 : field.name <;> simp only [h4] at h
  case some n =>
    obtain rfl : _ = a := by injection h
    simp [h1]
  case none =>
    cases h5 : env.tableName ftid <;> simp only [h5] at h
    case none => cases h
    case some n =>
      obtain rfl : _ = a := by injection h
      simp [h1]

lemma supplementByCreate_inv (tableId : String) (field : PreparedLinkField)
    (env : PrepareEnv) (b : PreparedLinkField) (fks : List FkColumn)
    (h : supplementByCreate tableId field env = .ok (b, fks)) :
    ∃ tblName lookupFieldId,
      env.tableName tableId = some tblName ∧
      env.foreignPrimaryField tableId = some lookupFieldId ∧
      b = { base :=
              { id := some field.options.symmetricFieldId
                name := some tblName
                type := FieldType.Link
                isLookup := false
                lookupOptions := none
                options := none }
            id := field.options.symmetricFieldId
            name := tblName
            options :=
              { relationship := RelationshipRevert field.options.relationship
                foreignTableId := tableId
                lookupFieldId := lookupFieldId
                dbForeignKeyName := field.options.dbForeignKeyName
                symmetricFieldId := field.id } } ∧
      (field.options.relationship = Relationship.manyMany → fks = []) := by
  unfold supplementByCreate at h
  by_cases ht : field.base.type ≠ FieldType.Link
  · rw [if_pos ht] at h
    cases h
  · rw [if_neg ht] at h
    cases hg : generateSymmetricField tableId field env with
    | error e =>
      simp only [hg] at h
      cases h
    | ok sym =>
    simp only [hg] at h
    cases hfk1 : (if sym.options.relationship = Relationship.manyOne then
        (createForeignKeyField field.options.foreignTableId sym env).map (fun c => [c])
      else Except.ok []) with
    | error e =>
      simp only [hfk1] at h
      cases h
    | ok fks1 =>
    simp only [hfk1] at h
    cases hfk2 : (if field.options.relationship = Relationship.manyOne then
        (createForeignKeyField tableId field env).map (fun c => [c])
      else Except.ok []) with
    | error e =>
      simp only [hfk2] at h
      cases h
    | ok fks2 =>
    simp only [hfk2] at h
    injection h with h7
    cases h7
    unfold generateSymmetricField at hg
    cases h5 : env.tableName tableId with
    | none =>
      simp only [h5] at hg
      cases hg
    | some tblName =>
    cases h6 : env.foreignPrimaryField tableId with
    | none =>
      simp only [h5, h6] at hg
      cases hg
    | some lookupFieldId =>
    simp only [h5, h6] at hg
    obtain rfl : _ = b := by injection hg
    refine ⟨tblName, lookupFieldId, rfl, rfl, rfl, ?_⟩
    intro hmm
    have e1 : fks1 = [] := by
      simp [hmm, RelationshipRevert] at hfk1
      exact hfk1
    have e2 : fks2 = [] := by
      simp [hmm] at hfk2
      exact hfk2
    rw [e1, e2]
    rfl

/-- C1: for every valid Link field creation request (one on which
`prepareField` and `supplementByCreate` succeed), the resolved field `a` and
the symmetric field `b` satisfy: `a.options.symmetricFieldId = b.id`,
`b.options.symmetricFieldId = a.id`, both share `dbForeignKeyName`, `b`'s
`foreignTableId` is the original field's table, and `b`'s relationship is the
mirror of `a`'s (OneMany↔ManyOne, ManyMany↔ManyMany). -/
theorem link_symmetric_pair_invariants
    (tableId : String) (field : FieldRo) (batchFieldRos : Option (List FieldRo))
    (env : PrepareEnv) (a b : PreparedLinkField) (fks : List FkColumn)
    (hprep : prepareField field batchFieldRos env = .ok (.link a))
    (hsupp : supplementByCreate tableId a env = .ok (b, fks)) :
    a.options.symmetricFieldId = b.id
    ∧ b.options.symmetricFieldId = a.id
    ∧ a.options.dbForeignKeyName = b.options.dbForeignKeyName
    ∧ b.options.foreignTableId = tableId
    ∧ (a.options.relationship = Relationship.oneMany →
        b.options.relationship = Relationship.manyOne)
    ∧ (a.options.relationship = Relationship.manyOne →
        b.options.relationship = Relationship.oneMany)
    ∧ (a.options.relationship = Relationship.manyMany →
        b.options.relationship = Relationship.manyMany) := by
  obtain ⟨tblName, lookupFieldId, h1, h2, hb, -⟩ :=
    supplementByCreate_inv tableId a env b fks hsupp
  subst hb
  refine ⟨rfl, rfl, rfl, rfl, ?_, ?_, ?_⟩ <;> intro hrel <;> simp [hrel, RelationshipRevert]

/-- C3: for every Link field resolved by `prepareField`: if the relationship
is ManyOne the derived foreign-key column name is `getForeignKeyFieldName` of
the field's own id; if OneMany it is `getForeignKeyFieldName` of the symmetric
field's id (the field on the many end, as confirmed against the field
`supplementByCreate` builds); both via the same naming function. -/
theorem link_foreign_key_name_derivation
    (field : FieldRo) (batchFieldRos : Option (List FieldRo)) (env : PrepareEnv)
    (a : PreparedLinkField)
    (hprep : prepareField field batchFieldRos env = .ok (.link a)) :
    (a.options.relationship = Relationship.manyOne →
      a.options.dbForeignKeyName = getForeignKeyFieldName a.id)
    ∧ (a.options.relationship = Relationship.oneMany →
      a.options.dbForeignKeyName = getForeignKeyFieldName a.options.symmetricFieldId)
    ∧ (∀ tableId b fks, a.options.relationship = Relationship.oneMany →
        supplementByCreate tableId a env = .ok (b, fks) →
        a.options.dbForeignKeyName = getForeignKeyFieldName b.id) := by
  obtain ⟨-, -, hlink⟩ := prepareField_link_inv field batchFieldRos env a hprep
  obtain ⟨-, -, hsym, -, hfk⟩ := prepareLinkField_inv field env a hlink
  refine ⟨?_, ?_, ?_⟩
  · intro hrel
    rw [hfk, if_pos hrel]
  · intro hrel
    rw [hfk, if_neg (by rw [hrel]; decide), if_pos hrel, hsym]
  · intro tableId b fks hrel hsupp
    obtain ⟨tblName, lookupFieldId, -, -, hb, -⟩ :=
      supplementByCreate_inv tableId a env b fks hsupp
    have hbid : b.id = a.options.symmetricFieldId := by rw [hb]
    rw [hbid, hfk, if_neg (by rw [hrel]; decide), if_pos hrel, hsym]

/-- C10: for every Link field with relationship ManyMany resolved by
`prepareField`, the field's `dbForeignKeyName` is the empty string, and
`supplementByCreate` creates no foreign-key column on either table (the
symmetric field, also ManyMany by mirroring, triggers none either). -/
theorem many_many_link_no_foreign_key
    (field : FieldRo) (batchFieldRos : Option (List FieldRo)) (env : PrepareEnv)
    (a : PreparedLinkField)
    (hprep : prepareField field batchFieldRos env = .ok (.link a))
    (hrel : a.options.relationship = Relationship.manyMany) :
    a.options.dbForeignKeyName = ""
    ∧ (∀ tableId env2 b fks, supplementByCreate tableId a env2 = .ok (b, fks) →
        fks = [] ∧ b.options.relationship = Relationship.manyMany) := by
  obtain ⟨-, -, hlink⟩ := prepareField_link_inv field batchFieldRos env a hprep
  obtain ⟨-, -, -, -, hfk⟩ := prepareLinkField_inv field env a hlink
  constructor
  · rw [hfk, if_neg (by rw [hrel]; decide), if_neg (by rw [hrel]; decide)]
  · intro tableId env2 b fks hsupp
    obtain ⟨tblName, lookupFieldId, -, -, hb, hnil⟩ :=
      supplementByCreate_inv tableId a env2 b fks hsupp
    refine ⟨hnil hrel, ?_⟩
    rw [hb]
    simp [hrel, RelationshipRevert]

theorem link_symmetric_pair_invariants_witness :
    c1A.options.symmetricFieldId = c1B.id
    ∧ c1B.options.symmetricFieldId = c1A.id
    ∧ c1A.options.dbForeignKeyName = c1B.options.dbForeignKeyName
    ∧ c1B.options.foreignTableId = "tbl1"
    ∧ (c1A.options.relationship = Relationship.oneMany →
        c1B.options.relationship = Relationship.manyOne)
    ∧ (c1A.options.relationship = Relationship.manyOne →
        c1B.options.relationship = Relationship.oneMany)
    ∧ (c1A.options.relationship = Relationship.manyMany →
        c1B.options.relationship = Relationship.manyMany) :=
  link_symmetric_pair_invariants "tbl1" c1Field none c1Env c1A c1B
    [{ dbTableName := "db_tbl1", columnName := "__fk_fldA" }] rfl rfl

theorem link_foreign_key_name_derivation_witness :
    c1A.options.dbForeignKeyName = getForeignKeyFieldName c1A.id
    ∧ c3A.options.dbForeignKeyName = getForeignKeyFieldName c3A.options.symmetricFieldId :=
  ⟨(link_foreign_key_name_derivation c1Field none c1Env c1A rfl).1 rfl,
   (link_foreign_key_name_derivation c3Field none c1Env c3A rfl).2.1 rfl⟩

theorem many_many_link_no_foreign_key_witness :
    c10A.options.dbForeignKeyName = ""
    ∧ c10B.options.relationship = Relationship.manyMany :=
  ⟨(many_many_link_no_foreign_key c10Field none c1Env c10A rfl rfl).1,
   ((many_many_link_no_foreign_key c10Field none c1Env c10A rfl rfl).2
      "tbl1" c1Env c10B [] rfl).2⟩

lemma rowGroupId_formula (groupBy : List String) (m : String → String) (i : Nat)
    (row : DbRow) (hi : i < groupBy.length) :
    rowGroupId (groupBy.map (fun fid => (fid, m fid))) i row =
      toString (string2Hash (groupBy[i] ++ "_" ++
        String.intercalate "_" ((groupBy.take (i + 1)).map
          (fun fid => convertValueToStringify (DbRow.get row (m fid)))))) := by
  have h1 : (groupBy.map (fun fid => (fid, m fid))).take (i + 1)
      = (groupBy.take (i + 1)).map (fun fid => (fid, m fid)) :=
    (List.map_take _ _ _).symm
  have h2 : (groupBy.map (fun fid => (fid, m fid)))[i]? = some (groupBy[i], m (groupBy[i])) := by
    simp [List.getElem?_map, List.getElem?_eq_getElem hi]
  simp only [rowGroupId, h1, h2, List.map_map, Option.map_some, Option.getD_some]
  rfl

/-- C2: for every grouped aggregation, at each level `i` and for every result
row of the level-`i` query, the group id assigned to that row's statistics
equals the string form of the stable string-to-integer hash applied to the
concatenation of `groupBy[i]`, an underscore, and the underscore-joined
canonical stringifications of the row's group values for levels `0..i`; and
the same (group field id, level-0..i group values) always yields the same
group id (second conjunct, for any row agreeing on those group columns). -/
theorem grouped_aggregation_group_id_hash
    (groupBy : List String) (fieldInstanceMap : String → String)
    (statisticFields : List StatField) (queryResult : Nat → List DbRow)
    (i : Nat) (row row2 : DbRow) (sf : StatField)
    (hi : i < groupBy.length)
    (hrow : row ∈ queryResult i)
    (hsf : sf ∈ statisticFields)
    (hagree : ∀ fid ∈ groupBy.take (i + 1),
      DbRow.get row2 (fieldInstanceMap fid) = DbRow.get row (fieldInstanceMap fid)) :
    ({ fieldId := sf.fieldId
       groupId := toString (string2Hash (groupBy[i] ++ "_" ++
         String.intercalate "_" ((groupBy.take (i + 1)).map
           (fun fid => convertValueToStringify (DbRow.get row (fieldInstanceMap fid))))))
       value := formatConvertValue
         (DbRow.get row (sf.fieldId ++ "_" ++ statFuncKey sf.statisticFunc))
         (some sf.statisticFunc)
       aggFunc := sf.statisticFunc } : GroupAssignment) ∈
      groupedAggregationAssignments groupBy fieldInstanceMap statisticFields queryResult
    ∧ rowGroupId (groupBy.map (fun fid => (fid, fieldInstanceMap fid))) i row2
      = rowGroupId (groupBy.map (fun fid => (fid, fieldInstanceMap fid))) i row := by
  constructor
  · simp only [groupedAggregationAssignments, List.mem_flatMap]
    refine ⟨i, List.mem_range.mpr hi, ?_⟩
    simp only [levelAssignments, List.mem_flatMap]
    refine ⟨row, hrow, ?_⟩
    rw [rowGroupId_formula groupBy fieldInstanceMap i row hi]
    exact List.mem_map_of_mem _ hsf
  · rw [rowGroupId_formula groupBy fieldInstanceMap i row2 hi,
      rowGroupId_formula groupBy fieldInstanceMap i row hi]
    have : ((groupBy.take (i + 1)).map
        (fun fid => convertValueToStringify (DbRow.get row2 (fieldInstanceMap fid))))
        = ((groupBy.take (i + 1)).map
        (fun fid => convertValueToStringify (DbRow.get row (fieldInstanceMap fid)))) :=
      List.map_congr_left (fun fid hfid => by rw [hagree fid hfid])
    rw [this]

theorem grouped_aggregation_group_id_hash_witness :
    ({ fieldId := "fldAmt"
       groupId := toString (string2Hash ((["fldName"] : List String)[0] ++ "_" ++
         String.intercalate "_" ((c2GroupBy.take 1).map
           (fun fid => convertValueToStringify (DbRow.get c2Row (c2FieldInstanceMap fid))))))
       value := formatConvertValue
         (DbRow.get c2Row ("fldAmt" ++ "_" ++ statFuncKey StatisticsFunc.sum))
         (some StatisticsFunc.sum)
       aggFunc := StatisticsFunc.sum } : GroupAssignment) ∈
      groupedAggregationAssignments c2GroupBy c2FieldInstanceMap c2Stats c2QueryResult
    ∧ rowGroupId (c2GroupBy.map (fun fid => (fid, c2FieldInstanceMap fid))) 0 c2Row
      = rowGroupId (c2GroupBy.map (fun fid => (fid, c2FieldInstanceMap fid))) 0 c2Row :=
  grouped_aggregation_group_id_hash c2GroupBy c2FieldInstanceMap c2Stats c2QueryResult
    0 c2Row c2Row { fieldId := "fldAmt", statisticFunc := .sum }
    (by decide) (by decide) (by decide) (by decide)
